import Mathlib

set_option maxHeartbeats 1000000
set_option maxRecDepth 10000

/-!
Shallow embedding of `src/XNotifBot/XNotifBot.py` (an X/Twitter polling bot
that logs notifications to a file) and verification of its specification.

Modelling conventions:
* wall-clock times (`datetime.now()`, `tweet.created_at`) are integers counting
  seconds; `timedelta.total_seconds()` is then plain integer subtraction.  The
  Python comparison `time_passed.total_seconds() / 60 >= min_interval_minutes`
  is modelled as `60 * min_interval_minutes ≤ time_passed`, which is equivalent
  over the rationals and avoids floating point.
* a Python `set` of strings is modelled as a duplicate-free list kept in
  insertion order (`add` appends when the element is absent).  Membership
  and insertion are order-independent, so this is faithful for them; but
  CPython enumerates a set of strings in hash order (salted per process),
  not insertion order, so `list(s)` is *not* determined by the model.
  Wherever the enumeration order matters, the theorems therefore quantify
  over an arbitrary permutation of the elements; the insertion-order list
  is only a concrete determinization used for example traces whose verdict
  does not depend on the order.
* a Python `dict` is modelled as an association list in insertion order;
  assignment `d[k] = v` updates the existing entry in place or appends.
* API results (`tweepy` responses) are modelled with `Option`: `none` stands
  for a failed call or a response with falsy `.data`.
-/

namespace XNotifBot

/-- Engagement counters of one tweet, the `public_metrics` dict of the API. -/
structure Metrics where
  reply_count : Int
  retweet_count : Int
  like_count : Int
  quote_count : Int
deriving DecidableEq, Repr

/-- A value stored in `bot_state["last_check_time"]`: either a live
`datetime` object (modelled by its integer timestamp) or the string a
JSON round trip turned it into. -/
inductive TimeVal where
  | dt (t : Int)
  | str (s : String)
deriving DecidableEq, Repr

/-- Python dict assignment `d[k] = v` on an association list: replace the
first entry with key `k`, or append when `k` is absent. -/
def setKey {β : Type} (k : String) (v : β) : List (String × β) → List (String × β)
  | [] => [(k, v)]
  | (k', v') :: rest => if k' = k then (k, v) :: rest else (k', v') :: setKey k v rest

/-- `should_check` (source lines 97–119).  `parseIso` models
`datetime.fromisoformat`, returning `none` on a `ValueError`; on that
exception the source substitutes `now - timedelta(minutes=min_interval_minutes+1)`.
Returns the boolean result together with the updated `last_check_time` map. -/
def should_check (parseIso : String → Option Int) (now : Int)
    (lct : List (String × TimeVal)) (check_type : String)
    (min_interval_minutes : Int) : Bool × List (String × TimeVal) :=
  match lct.lookup check_type with
  | none => (true, setKey check_type (.dt now) lct)
  | some last_check =>
    let lcTime : Int :=
      match last_check with
      | .dt t => t
      | .str s =>
        match parseIso s with
        | some t => t
        | none => now - 60 * (min_interval_minutes + 1)
    let time_passed := now - lcTime
    if 60 * min_interval_minutes ≤ time_passed then
      (true, setKey check_type (.dt now) lct)
    else
      (false, lct)

/-- Outcome of one invocation of the callable wrapped by `safe_api_call`. -/
inductive CallResult (α : Type) where
  | success (v : α)
  | rateLimited
  | apiError
deriving DecidableEq, Repr

/-- The retry loop of `safe_api_call` (source lines 126–141).  `outcomes i`
is what the wrapped callable does on the attempt made when `retry_count = i`;
the fuel argument equals `max_retries - retry_count`.  Returns the result
(`none` after exhausting retries) and the list of sleep durations in seconds,
in order.  Note the source increments `retry_count` *before* computing
`wait_time = 60 * (2 ** retry_count)` (resp. `30 * retry_count`). -/
def safe_api_call_loop {α : Type} (outcomes : Nat → CallResult α) :
    Nat → Nat → Option α × List Nat
  | 0, _ => (none, [])
  | fuel + 1, retry_count =>
    match outcomes retry_count with
    | .success v => (some v, [])
    | .rateLimited =>
      let rc := retry_count + 1
      let wait_time := 60 * 2 ^ rc
      let rest := safe_api_call_loop outcomes fuel rc
      (rest.1, wait_time :: rest.2)
    | .apiError =>
      let rc := retry_count + 1
      let wait_time := 30 * rc
      let rest := safe_api_call_loop outcomes fuel rc
      (rest.1, wait_time :: rest.2)

/-- `max_retries` of `safe_api_call` (source line 123). -/
def max_retries : Nat := 3

/-- `safe_api_call` (source lines 121–143): run the wrapped callable with up
to `max_retries` attempts, sleeping between attempts as the source does. -/
def safe_api_call {α : Type} (outcomes : Nat → CallResult α) :
    Option α × List Nat :=
  safe_api_call_loop outcomes max_retries 0

/-- One tweet of a `get_users_tweets` response: numeric id, text, counters. -/
structure Tweet where
  id : Int
  text : String
  public_metrics : Metrics
deriving DecidableEq, Repr

/-- One mention of a `get_users_mentions` response. -/
structure Mention where
  id : Int
  created_at : Int
  author_id : Int
  text : String
  public_metrics : Metrics
deriving DecidableEq, Repr

/-- The bot's process-wide state dict (source lines 36–44). -/
structure BotState where
  user_id : Option Int
  last_follower_count : Int
  last_tweet_id : Option Int
  processed_mentions : List String
  tweet_metrics : List (String × Metrics)
  notifications : List String
  last_check_time : List (String × TimeVal)
deriving DecidableEq, Repr

/-- The notification text of `check_new_followers` (source line 175). -/
def follower_message (follower_diff current_follower_count : Int) : String :=
  "Follower count changed by " ++ toString follower_diff ++
    ". New total: " ++ toString current_follower_count

/-- The notification text of `check_new_tweets` (source lines 215–223);
`username` is the `TWITTER_USERNAME` environment value. -/
def tweet_message (username : String) (t : Tweet) : String :=
  "New tweet posted!\n" ++
    "Content: " ++ t.text.take 100 ++ "...\n" ++
    "Replies: " ++ toString t.public_metrics.reply_count ++ "\n" ++
    "Retweets: " ++ toString t.public_metrics.retweet_count ++ "\n" ++
    "Likes: " ++ toString t.public_metrics.like_count ++ "\n" ++
    "Quotes: " ++ toString t.public_metrics.quote_count ++ "\n" ++
    "URL: https://twitter.com/" ++ username ++ "/status/" ++ toString t.id

/-- The notification text of `check_mentions` (source lines 278–285). -/
def mention_message (author_username : String) (t : Mention) : String :=
  "New mention from @" ++ author_username ++ "!\n" ++
    "Content: " ++ t.text.take 100 ++ "...\n" ++
    "Replies: " ++ toString t.public_metrics.reply_count ++ "\n" ++
    "Retweets: " ++ toString t.public_metrics.retweet_count ++ "\n" ++
    "Likes: " ++ toString t.public_metrics.like_count ++ "\n" ++
    "URL: https://twitter.com/" ++ author_username ++ "/status/" ++ toString t.id

/-- The notification text of `check_tweet_engagement` (source lines 355–361). -/
def engagement_message (username : String) (t : Tweet) (change_text : List String)
    (metrics : Metrics) : String :=
  "Engagement update on tweet!\n" ++
    "Content: " ++ t.text.take 100 ++ "...\n" ++
    String.intercalate ", " change_text ++ "\n" ++
    "Current totals: " ++ toString metrics.reply_count ++ " replies, " ++
    toString metrics.retweet_count ++ " retweets, " ++
    toString metrics.like_count ++ " likes\n" ++
    "URL: https://twitter.com/" ++ username ++ "/status/" ++ toString t.id

/-- `check_new_followers` (source lines 145–180), after the credentials are
fixed.  `fetch` is the follower count delivered by `safe_api_call`, `none`
when the call failed or the response had no data.  The gate is evaluated
first and mutates `last_check_time` exactly as the source does. -/
def check_new_followers_run (parseIso : String → Option Int) (now : Int)
    (s : BotState) (fetch : Option Int) : BotState :=
  let gate := should_check parseIso now s.last_check_time "followers" 60
  if !gate.1 then s
  else
    let s := { s with last_check_time := gate.2 }
    match fetch with
    | none => s
    | some current_follower_count =>
      if s.last_follower_count = 0 then
        { s with last_follower_count := current_follower_count }
      else
        let follower_diff := current_follower_count - s.last_follower_count
        let s :=
          if follower_diff ≠ 0 then
            { s with notifications := s.notifications ++
                [follower_message follower_diff current_follower_count] }
          else s
        { s with last_follower_count := current_follower_count }

/-- `check_new_tweets` (source lines 182–228).  `fetch` is the list of the
account's recent tweets, newest first; `none` models a failed call and an
empty list a response with no data — both make the detector a no-op after
the gate. -/
def check_new_tweets_run (parseIso : String → Option Int) (now : Int)
    (username : String) (s : BotState) (fetch : Option (List Tweet)) : BotState :=
  let gate := should_check parseIso now s.last_check_time "tweets" 30
  if !gate.1 then s
  else
    let s := { s with last_check_time := gate.2 }
    match fetch with
    | none => s
    | some tweets =>
      match tweets with
      | [] => s
      | newest_tweet :: _ =>
        let newest_tweet_id := newest_tweet.id
        match s.last_tweet_id with
        | none => { s with last_tweet_id := some newest_tweet_id }
        | some stored =>
          if toString newest_tweet_id ≠ toString stored then
            { s with
              notifications := s.notifications ++ [tweet_message username newest_tweet],
              last_tweet_id := some newest_tweet_id }
          else s

/-- The accumulator of the `for tweet in mentions.data` loop of
`check_mentions` (source lines 254–286). -/
structure MentionAcc where
  processed_mentions : List String
  notifications : List String
  new_mentions_found : Bool
deriving DecidableEq, Repr

/-- One iteration of the mention loop (source lines 256–286): skip an
already-processed id; otherwise mark it processed immediately and notify
only when the mention is at most 24 hours (86400 seconds) old.
`author_map` is the id→username map built from the batched author lookup. -/
def mention_step (now : Int) (author_map : List (Int × String))
    (acc : MentionAcc) (t : Mention) : MentionAcc :=
  if toString t.id ∈ acc.processed_mentions then acc
  else
    let pm := acc.processed_mentions ++ [toString t.id]
    if 86400 < now - t.created_at then
      { processed_mentions := pm, notifications := acc.notifications,
        new_mentions_found := true }
    else
      let author_username := (author_map.lookup t.author_id).getD "unknown"
      { processed_mentions := pm,
        notifications := acc.notifications ++ [mention_message author_username t],
        new_mentions_found := true }

/-- The processed-mentions list after the mention loop ran over `mentions`. -/
def mentions_after_processing (now : Int) (author_map : List (Int × String))
    (pm : List String) (mentions : List Mention) : List String :=
  (mentions.foldl (mention_step now author_map) ⟨pm, [], false⟩).processed_mentions

/-- The eviction of `check_mentions` (source lines 290–292):
`set(list(processed_mentions)[-50:])` once the set exceeds 100 entries.
The argument is the enumeration `list(processed_mentions)`; `[-50:]` is
then the suffix of its last 50 elements.  CPython enumerates the set in
hash order, so that argument is *some* permutation of the set's elements —
the eviction theorems quantify over it, while `check_mentions_run` below
feeds the insertion-order determinization (which 50 ids survive depends on
the unknowable order; how many survive does not). -/
def evict_processed_mentions (pm : List String) : List String :=
  if 100 < pm.length then pm.drop (pm.length - 50) else pm

/-- `check_mentions` (source lines 230–293) after its gate passed: run the
loop over the fetched mentions, then evict and save when new mentions were
found.  Returns the new `processed_mentions` and the notifications emitted
this cycle. -/
def check_mentions_run (now : Int) (author_map : List (Int × String))
    (pm : List String) (fetch : Option (List Mention)) : List String × List String :=
  match fetch with
  | none => (pm, [])
  | some mentions =>
    if mentions.isEmpty then (pm, [])
    else
      let acc := mentions.foldl (mention_step now author_map) ⟨pm, [], false⟩
      if acc.new_mentions_found then
        (evict_processed_mentions acc.processed_mentions, acc.notifications)
      else
        (acc.processed_mentions, acc.notifications)

/-- One iteration of the `for tweet in tweets.data` loop of
`check_tweet_engagement` (source lines 319–366): first observation of a
tweet stores its counters without notifying; otherwise the deltas against
the stored counters decide the notification and the stored counters are
overwritten with the fresh values either way.  Returns the updated
`tweet_metrics` and the notification, if one fired. -/
def engagement_process_tweet (username : String)
    (tm : List (String × Metrics)) (t : Tweet) :
    List (String × Metrics) × Option String :=
  let tweet_id := toString t.id
  let metrics := t.public_metrics
  match tm.lookup tweet_id with
  | none => (setKey tweet_id metrics tm, none)
  | some prev =>
    let like_diff := metrics.like_count - prev.like_count
    let rt_diff := metrics.retweet_count - prev.retweet_count
    let reply_diff := metrics.reply_count - prev.reply_count
    let change_text :=
      (if 10 ≤ like_diff then ["+" ++ toString like_diff ++ " likes"] else []) ++
      (if 5 ≤ rt_diff then ["+" ++ toString rt_diff ++ " retweets"] else []) ++
      (if 3 ≤ reply_diff then ["+" ++ toString reply_diff ++ " replies"] else [])
    let notif :=
      if 10 ≤ like_diff ∨ 5 ≤ rt_diff ∨ 3 ≤ reply_diff then
        some (engagement_message username t change_text metrics)
      else none
    (setKey tweet_id metrics tm, notif)

/-- One fold step of the engagement loop, threading
`(tweet_metrics, notifications, engagement_updates)`.  Every processed tweet
sets `engagement_updates` (both branches of the source loop do). -/
def engagement_loop_step (username : String)
    (acc : List (String × Metrics) × List String × Bool) (t : Tweet) :
    List (String × Metrics) × List String × Bool :=
  let step := engagement_process_tweet username acc.1 t
  (step.1, acc.2.1 ++ step.2.toList, true)

/-- The whole engagement loop: fold `engagement_process_tweet` over the
fetched tweets, collecting notifications. -/
def engagement_loop (username : String)
    (tm : List (String × Metrics)) (tweets : List Tweet) :
    List (String × Metrics) × List String × Bool :=
  tweets.foldl (engagement_loop_step username) (tm, [], false)

/-- Python string comparison `a < b`: lexicographic on code points. -/
def pyStrLt (a b : String) : Bool :=
  decide (a.data < b.data)

/-- Insert into a descending list, keeping it descending. -/
def pyDescInsert (x : String) : List String → List String
  | [] => [x]
  | y :: ys => if pyStrLt y x then x :: y :: ys else y :: pyDescInsert x ys

/-- Python `sorted(keys, reverse=True)`: the keys in descending
lexicographic order (insertion sort; the keys are distinct, so any sort
agrees). -/
def pySortDesc (l : List String) : List String :=
  l.foldr pyDescInsert []

/-- The eviction of `check_tweet_engagement` (source lines 371–378): once
more than 10 tweets are tracked, sort the id strings descending (Python
`sorted(keys, reverse=True)`, i.e. lexicographic string order) and rebuild
the dict from the first 10. -/
def evict_tweet_metrics (tm : List (String × Metrics)) : List (String × Metrics) :=
  if 10 < tm.length then
    let sorted_ids := pySortDesc (tm.map Prod.fst)
    (sorted_ids.take 10).filterMap fun tweet_id =>
      (tm.lookup tweet_id).map fun m => (tweet_id, m)
  else tm

/-- `check_tweet_engagement` (source lines 295–380) after its gate passed
and with `last_tweet_id` already initialized: process the fetched tweets,
then evict and save if any tweet was processed.  Returns the new
`tweet_metrics` and the notifications of this cycle. -/
def check_tweet_engagement_run (username : String)
    (tm : List (String × Metrics)) (fetch : Option (List Tweet)) :
    List (String × Metrics) × List String :=
  match fetch with
  | none => (tm, [])
  | some tweets =>
    if tweets.isEmpty then (tm, [])
    else
      let looped := engagement_loop username tm tweets
      if looped.2.2 then (evict_tweet_metrics looped.1, looped.2.1)
      else (looped.1, looped.2.1)

/-- One engagement cycle as seen from `tweet_metrics`: the gate may be
closed (`gate = false`), `last_tweet_id` may still be `none`, or the fetch
may fail — in each of those cases the map is untouched. -/
def engagement_cycle (username : String)
    (cycle : Bool × Option Int × Option (List Tweet))
    (tm : List (String × Metrics)) : List (String × Metrics) :=
  if cycle.1 = false then tm
  else
    match cycle.2.1 with
    | none => tm
    | some _ => (check_tweet_engagement_run username tm cycle.2.2).1

/-- Any number of engagement cycles in sequence. -/
def run_engagement_cycles (username : String)
    (cycles : List (Bool × Option Int × Option (List Tweet)))
    (tm : List (String × Metrics)) : List (String × Metrics) :=
  cycles.foldl (fun acc c => engagement_cycle username c acc) tm

/-- JSON values, the image of `json.dump`/`json.load`.  The textual layer is
left out: `json.dump` followed by `json.load` is the identity on this type,
so the round trip of interest is the one between `BotState` and `JVal`. -/
inductive JVal where
  | jnull
  | jint (n : Int)
  | jstr (s : String)
  | jlist (xs : List JVal)
  | jobj (fields : List (String × JVal))

/-- Model of Python `str(datetime)` (the `default=str` fallback of
`json.dump` at source line 58).  The claims depend only on the result being
a string, never on the exact rendering, so the timestamp is rendered
directly. -/
def datetime_str (t : Int) : String :=
  "datetime:" ++ toString t

/-- Serialization of a `TimeVal` under `json.dump(..., default=str)`: a live
datetime goes through `str`, a string is dumped as itself. -/
def TimeVal.toJson : TimeVal → JVal
  | .dt t => .jstr (datetime_str t)
  | .str s => .jstr s

/-- Serialization of an optional integer field (`None` → JSON null). -/
def optIntToJson : Option Int → JVal
  | none => .jnull
  | some n => .jint n

/-- Serialization of a `public_metrics` dict. -/
def metricsToJson (m : Metrics) : JVal :=
  .jobj [("retweet_count", .jint m.retweet_count),
         ("reply_count", .jint m.reply_count),
         ("like_count", .jint m.like_count),
         ("quote_count", .jint m.quote_count)]

/-- `save_state` (source lines 50–61) seen as serialization: copy the state,
turn `processed_mentions` into a list (the insertion-order enumeration of
the set model) and dump everything as JSON with `default=str`. -/
def save_state_json (s : BotState) : JVal :=
  .jobj [("user_id", optIntToJson s.user_id),
         ("last_follower_count", .jint s.last_follower_count),
         ("last_tweet_id", optIntToJson s.last_tweet_id),
         ("processed_mentions", .jlist (s.processed_mentions.map .jstr)),
         ("tweet_metrics", .jobj (s.tweet_metrics.map fun kv => (kv.1, metricsToJson kv.2))),
         ("notifications", .jlist (s.notifications.map .jstr)),
         ("last_check_time", .jobj (s.last_check_time.map fun kv => (kv.1, kv.2.toJson)))]

/-- Read back an optional integer field. -/
def optIntFromJson : JVal → Option (Option Int)
  | .jnull => some none
  | .jint n => some (some n)
  | _ => none

/-- Read back a plain integer field. -/
def intFromJson : JVal → Option Int
  | .jint n => some n
  | _ => none

/-- Read back a string. -/
def strFromJson : JVal → Option String
  | .jstr s => some s
  | _ => none

/-- Read back a list of strings, failing on the first non-string. -/
def strListFromJsonList : List JVal → Option (List String)
  | [] => some []
  | x :: xs => do
    let s ← strFromJson x
    let rest ← strListFromJsonList xs
    some (s :: rest)

/-- Read back a list of strings. -/
def strListFromJson : JVal → Option (List String)
  | .jlist xs => strListFromJsonList xs
  | _ => none

/-- Read back a `public_metrics` dict. -/
def metricsFromJson : JVal → Option Metrics
  | .jobj fields => do
    let rt ← (fields.lookup "retweet_count").bind intFromJson
    let rp ← (fields.lookup "reply_count").bind intFromJson
    let lk ← (fields.lookup "like_count").bind intFromJson
    let qt ← (fields.lookup "quote_count").bind intFromJson
    some ⟨rp, rt, lk, qt⟩
  | _ => none

/-- Read back one `last_check_time` value.  After a JSON round trip the
stored value is always a string; the detector parses it lazily later. -/
def timeValFromJson : JVal → Option TimeVal
  | .jstr s => some (.str s)
  | _ => none

/-- Read back the entries of the `tweet_metrics` dict. -/
def tweetMetricsFieldsFromJson : List (String × JVal) → Option (List (String × Metrics))
  | [] => some []
  | kv :: rest => do
    let m ← metricsFromJson kv.2
    let others ← tweetMetricsFieldsFromJson rest
    some ((kv.1, m) :: others)

/-- Read back the `tweet_metrics` dict. -/
def tweetMetricsFromJson : JVal → Option (List (String × Metrics))
  | .jobj fields => tweetMetricsFieldsFromJson fields
  | _ => none

/-- Read back the entries of the `last_check_time` dict. -/
def lastCheckTimeFieldsFromJson : List (String × JVal) → Option (List (String × TimeVal))
  | [] => some []
  | kv :: rest => do
    let v ← timeValFromJson kv.2
    let others ← lastCheckTimeFieldsFromJson rest
    some ((kv.1, v) :: others)

/-- Read back the `last_check_time` dict. -/
def lastCheckTimeFromJson : JVal → Option (List (String × TimeVal))
  | .jobj fields => lastCheckTimeFieldsFromJson fields
  | _ => none

/-- `load_state` (source lines 63–79) seen as deserialization: read the JSON
document, rebuild `processed_mentions` with `set(...)` (insertion-order
deduplication in the set model) and update every field of the state.  A
missing or ill-typed field raises inside the `try`, which the source turns
into a failed load — modelled by `none`. -/
def load_state_json (j : JVal) : Option BotState :=
  match j with
  | .jobj fields => do
    let user_id ← (fields.lookup "user_id").bind optIntFromJson
    let lfc ← (fields.lookup "last_follower_count").bind intFromJson
    let lti ← (fields.lookup "last_tweet_id").bind optIntFromJson
    let pmList ← (fields.lookup "processed_mentions").bind strListFromJson
    let tm ← (fields.lookup "tweet_metrics").bind tweetMetricsFromJson
    let notifs ← (fields.lookup "notifications").bind strListFromJson
    let lct ← (fields.lookup "last_check_time").bind lastCheckTimeFromJson
    some ⟨user_id, lfc, lti, pmList.dedup, tm, notifs, lct⟩
  | _ => none

/-- How far `json.dump` got before failing, for the durability analysis of
`save_state`: the dump either succeeds, or raises after streaming a prefix
of the document, or `open` itself raises before touching the file. -/
inductive WriteOutcome where
  | openFail
  | dumpOk
  | dumpFail (written : Nat)
deriving DecidableEq, Repr

/-- The file-system effect of `save_state` (source lines 56–61).
`open(STATE_FILE, 'w')` truncates the state file in place before
`json.dump` streams the document into it; both exceptions are caught by the
`except` clause and only printed.  Returns the state-file content after the
call (`none` = file absent) and whether an exception escaped `save_state`
(never, by the catch-all handler). -/
def save_state_file (prev : Option String) (doc : String)
    (out : WriteOutcome) : Option String × Bool :=
  match out with
  | .openFail => (prev, false)
  | .dumpOk => (some doc, false)
  | .dumpFail written => (some (doc.take written), false)

/-! Concrete inputs used to exercise the definitions. -/

/-- A sample mention: created at time 0, written by author 7. -/
def exMention (i : Int) : Mention :=
  ⟨i, 0, 7, "hello there", ⟨1, 2, 3, 4⟩⟩

/-- A dedup set holding the hundred ids "0" … "99", in insertion order. -/
def exPM0 : List String :=
  (List.range 100).map (fun n => toString n)

/-- Batch `j` of ten fresh mentions, ids `101 + 10*j` … `110 + 10*j`. -/
def exBatch (j : Nat) : List Mention :=
  (List.range 10).map (fun i => exMention (Int.ofNat (101 + 10 * j + i)))

/-- The dedup set after a cycle at time 1000 saw the single mention 100,
starting from `exPM0`. -/
def exPM1 : List String :=
  (check_mentions_run 1000 [] exPM0 (some [exMention 100])).1

/-- The dedup set after six further cycles at time 100000, each fetching
ten fresh mentions (`exBatch 0` … `exBatch 5`; all are older than 24 h at
that time, so they are marked processed without a notification). -/
def exPM7 : List String :=
  (List.range 6).foldl
    (fun pm j => (check_mentions_run 100000 [] pm (some (exBatch j))).1) exPM1

/-- A fresh bot state, as initialized at source lines 36–44. -/
def exState : BotState :=
  ⟨none, 0, none, [], [], [], []⟩

/-- Eleven tracked tweets with ids "9" … "19": one fewer digit for "9". -/
def exMetricsMap : List (String × Metrics) :=
  (List.range 11).map (fun n => (toString (9 + n), (⟨0, 0, 0, 0⟩ : Metrics)))

/-- Numeric value of a decimal identifier string, for stating which of two
ids is numerically larger. -/
def decimalValue (s : String) : Nat :=
  s.data.foldl (fun acc c => 10 * acc + (c.toNat - 48)) 0

/-! ## Helper lemmas -/

/-- Looking up the key just assigned by `setKey` yields the new value. -/
theorem lookup_setKey_self {β : Type} (k : String) (v : β) (l : List (String × β)) :
    (setKey k v l).lookup k = some v := by
  induction l with
  | nil => simp [setKey, List.lookup]
  | cons hd tl ih =>
    by_cases h : hd.1 = k
    · simp [setKey, h, List.lookup]
    · have hbeq : (k == hd.1) = false := beq_eq_false_iff_ne.mpr (Ne.symm h)
      simp only [setKey, if_neg h]
      rw [List.lookup_cons]
      simp [hbeq, ih]

/-- When the gate opens, the stored timestamp becomes `now`. -/
theorem should_check_snd_of_true (parseIso : String → Option Int) (now : Int)
    (lct : List (String × TimeVal)) (ct : String) (m : Int)
    (h : (should_check parseIso now lct ct m).1 = true) :
    (should_check parseIso now lct ct m).2 = setKey ct (.dt now) lct := by
  unfold should_check at *
  cases hl : lct.lookup ct with
  | none => simp [hl]
  | some lc =>
    simp only [hl] at h ⊢
    split at h
    · simp_all
    · simp_all

/-- Processing more mentions never removes an id from the dedup set (only
the eviction step does). -/
theorem mention_foldl_mem (now : Int) (amap : List (Int × String)) (x : String) :
    ∀ (mentions : List Mention) (acc : MentionAcc),
      x ∈ acc.processed_mentions →
      x ∈ (mentions.foldl (mention_step now amap) acc).processed_mentions := by
  intro mentions
  induction mentions with
  | nil => intro acc h; exact h
  | cons hd tl ih =>
    intro acc h
    rw [List.foldl_cons]
    apply ih
    unfold mention_step
    split
    · exact h
    · split <;> exact List.mem_append_left _ h

/-- A nonempty engagement loop always reports `engagement_updates`. -/
theorem engagement_foldl_flag (u : String) :
    ∀ (tweets : List Tweet) (acc : List (String × Metrics) × List String × Bool),
      tweets ≠ [] → (tweets.foldl (engagement_loop_step u) acc).2.2 = true := by
  intro tweets
  induction tweets with
  | nil => intro acc h; exact absurd rfl h
  | cons hd tl ih =>
    intro acc _
    rw [List.foldl_cons]
    cases tl with
    | nil => rfl
    | cons h2 t2 => exact ih _ (by simp)

/-- The eviction of `check_tweet_engagement` never leaves more than 10
tracked tweets. -/
theorem evict_tweet_metrics_length_le (tm : List (String × Metrics)) :
    (evict_tweet_metrics tm).length ≤ 10 := by
  unfold evict_tweet_metrics
  split
  · refine le_trans (List.length_filterMap_le _ _) ?_
    rw [List.length_take]
    exact min_le_left _ _
  · omega

/-- One engagement run keeps the 10-entry bound on `tweet_metrics`. -/
theorem check_tweet_engagement_run_length_le (u : String)
    (tm : List (String × Metrics)) (fetch : Option (List Tweet))
    (h : tm.length ≤ 10) :
    (check_tweet_engagement_run u tm fetch).1.length ≤ 10 := by
  cases fetch with
  | none => simpa [check_tweet_engagement_run] using h
  | some tweets =>
    by_cases hne : tweets.isEmpty
    · simpa [check_tweet_engagement_run, hne] using h
    · have hflag : (engagement_loop u tm tweets).2.2 = true :=
        engagement_foldl_flag u tweets _ (by simpa using hne)
      simp only [check_tweet_engagement_run]
      rw [if_neg (by simpa using hne)]
      simp only [hflag, if_true]
      exact evict_tweet_metrics_length_le _

/-- One full cycle (gate, initialization guard, fetch included) keeps the
10-entry bound. -/
theorem engagement_cycle_length_le (u : String)
    (c : Bool × Option Int × Option (List Tweet))
    (tm : List (String × Metrics)) (h : tm.length ≤ 10) :
    (engagement_cycle u c tm).length ≤ 10 := by
  unfold engagement_cycle
  split
  · exact h
  · match c.2.1 with
    | none => exact h
    | some _ => exact check_tweet_engagement_run_length_le u tm c.2.2 h

/-- Any number of cycles keeps the 10-entry bound. -/
theorem run_engagement_cycles_length_le (u : String) :
    ∀ (cycles : List (Bool × Option Int × Option (List Tweet)))
      (tm : List (String × Metrics)), tm.length ≤ 10 →
      (run_engagement_cycles u cycles tm).length ≤ 10 := by
  intro cycles
  induction cycles with
  | nil => intro tm h; exact h
  | cons hd tl ih =>
    intro tm h
    unfold run_engagement_cycles
    rw [List.foldl_cons]
    exact ih (engagement_cycle u hd tm) (engagement_cycle_length_le u hd tm h)

/-- A key of an association list has a successful lookup. -/
theorem lookup_mem_keys {β : Type} (l : List (String × β)) (k : String)
    (h : k ∈ l.map Prod.fst) : ∃ v, l.lookup k = some v := by
  induction l with
  | nil => simp at h
  | cons hd tl ih =>
    obtain ⟨k1, v1⟩ := hd
    rw [List.map_cons, List.mem_cons] at h
    by_cases hk : k = k1
    · exact ⟨v1, by rw [List.lookup_cons]; simp [hk]⟩
    · have hbeq : (k == k1) = false := beq_eq_false_iff_ne.mpr hk
      rcases h with h | h
      · exact absurd h hk
      · obtain ⟨v, hv⟩ := ih h
        exact ⟨v, by rw [List.lookup_cons]; simp [hbeq, hv]⟩

/-- Rebuilding a dict from a list of its own keys keeps exactly those keys. -/
theorem filterMap_lookup_keys {β : Type} (l : List (String × β)) :
    ∀ ids : List String, (∀ i ∈ ids, i ∈ l.map Prod.fst) →
      ((ids.filterMap fun i => (l.lookup i).map fun m => (i, m)).map Prod.fst)
        = ids := by
  intro ids
  induction ids with
  | nil => intro _; rfl
  | cons hd tl ih =>
    intro h
    obtain ⟨v, hv⟩ := lookup_mem_keys l hd (h hd (List.mem_cons_self hd tl))
    rw [List.filterMap_cons]
    simp only [hv, Option.map_some']
    rw [List.map_cons, ih (fun i hi => h i (List.mem_cons_of_mem hd hi))]

/-- `pyStrLt` decides the lexicographic order on the character data. -/
theorem pyStrLt_eq_true_iff (a b : String) :
    pyStrLt a b = true ↔ a.data < b.data := by
  simp [pyStrLt]

/-- `pyStrLt` is `false` exactly on `≥` pairs. -/
theorem pyStrLt_eq_false_iff (a b : String) :
    pyStrLt a b = false ↔ ¬a.data < b.data := by
  simp [pyStrLt]

/-- Membership in a descending insertion. -/
theorem mem_pyDescInsert (x z : String) (l : List String) :
    z ∈ pyDescInsert x l ↔ z = x ∨ z ∈ l := by
  induction l with
  | nil => simp [pyDescInsert]
  | cons y ys ih =>
    unfold pyDescInsert
    by_cases hc : pyStrLt y x
    · simp [hc]
    · simp only [hc, Bool.false_eq_true, if_false, List.mem_cons, ih]
      tauto

/-- Descending insertion is a permutation of consing. -/
theorem perm_pyDescInsert (x : String) (l : List String) :
    List.Perm (pyDescInsert x l) (x :: l) := by
  induction l with
  | nil => exact List.Perm.refl _
  | cons y ys ih =>
    unfold pyDescInsert
    by_cases hc : pyStrLt y x
    · rw [if_pos hc]
    · rw [if_neg hc]
      exact (ih.cons y).trans (List.Perm.swap x y ys)

/-- The descending sort is a permutation of its input. -/
theorem perm_pySortDesc (l : List String) : List.Perm (pySortDesc l) l := by
  induction l with
  | nil => exact List.Perm.refl _
  | cons y ys ih =>
    unfold pySortDesc
    rw [List.foldr_cons]
    exact (perm_pyDescInsert y _).trans (ih.cons y)

/-- Descending insertion preserves descending pairwise order. -/
theorem pairwise_pyDescInsert (x : String) (l : List String)
    (hs : l.Pairwise (fun a b => pyStrLt a b = false)) :
    (pyDescInsert x l).Pairwise (fun a b => pyStrLt a b = false) := by
  induction l with
  | nil => simp [pyDescInsert]
  | cons y ys ih =>
    rcases List.pairwise_cons.mp hs with ⟨hy, hys⟩
    unfold pyDescInsert
    by_cases hc : pyStrLt y x
    · rw [if_pos hc]
      refine List.pairwise_cons.mpr ⟨?_, hs⟩
      intro z hz
      have hyx : y.data < x.data := (pyStrLt_eq_true_iff y x).mp hc
      rcases List.mem_cons.mp hz with rfl | hz
      · exact (pyStrLt_eq_false_iff x z).mpr (lt_asymm hyx)
      · have hzy : ¬y.data < z.data := (pyStrLt_eq_false_iff y z).mp (hy z hz)
        exact (pyStrLt_eq_false_iff x z).mpr
          (lt_asymm (lt_of_le_of_lt (not_lt.mp hzy) hyx))
    · rw [if_neg hc]
      refine List.pairwise_cons.mpr ⟨?_, ih hys⟩
      intro z hz
      rcases (mem_pyDescInsert x z ys).mp hz with rfl | hz
      · simpa using hc
      · exact hy z hz

/-- The descending sort is pairwise descending. -/
theorem pairwise_pySortDesc (l : List String) :
    (pySortDesc l).Pairwise (fun a b => pyStrLt a b = false) := by
  induction l with
  | nil => simp [pySortDesc]
  | cons y ys ih =>
    unfold pySortDesc
    rw [List.foldr_cons]
    exact pairwise_pyDescInsert y _ ih

/-- When more than 10 tweets are tracked, the eviction keeps exactly 10 and
every dropped key is lexicographically smaller than every kept key. -/
theorem evict_tweet_metrics_keeps_largest (tm : List (String × Metrics))
    (hnd : (tm.map Prod.fst).Nodup) (hbig : 10 < tm.length) :
    (evict_tweet_metrics tm).length = 10 ∧
    ∀ k ∈ (evict_tweet_metrics tm).map Prod.fst,
      ∀ k' ∈ tm.map Prod.fst,
        k' ∉ (evict_tweet_metrics tm).map Prod.fst → k' < k := by
  have hev : evict_tweet_metrics tm
      = ((pySortDesc (tm.map Prod.fst)).take 10).filterMap
          (fun tweet_id => (tm.lookup tweet_id).map fun m => (tweet_id, m)) := by
    unfold evict_tweet_metrics
    rw [if_pos hbig]
  have hperm : List.Perm (pySortDesc (tm.map Prod.fst)) (tm.map Prod.fst) :=
    perm_pySortDesc _
  have hsort : (pySortDesc (tm.map Prod.fst)).Pairwise
      (fun a b => pyStrLt a b = false) :=
    pairwise_pySortDesc _
  have hlen_sorted : (pySortDesc (tm.map Prod.fst)).length = tm.length := by
    rw [hperm.length_eq, List.length_map]
  have htake_sub : ∀ i ∈ (pySortDesc (tm.map Prod.fst)).take 10,
      i ∈ tm.map Prod.fst :=
    fun i hi => hperm.mem_iff.mp (List.mem_of_mem_take hi)
  have hkeys_eq : (evict_tweet_metrics tm).map Prod.fst
      = (pySortDesc (tm.map Prod.fst)).take 10 := by
    rw [hev]
    exact filterMap_lookup_keys tm _ htake_sub
  have hnd_sorted : (pySortDesc (tm.map Prod.fst)).Nodup := hperm.nodup_iff.mpr hnd
  constructor
  · have hlenmap := congrArg List.length hkeys_eq
    rw [List.length_map] at hlenmap
    rw [hlenmap, List.length_take, hlen_sorted]
    omega
  · intro k hk k' hk' hk'not
    rw [hkeys_eq] at hk hk'not
    have hk'sorted : k' ∈ pySortDesc (tm.map Prod.fst) := hperm.mem_iff.mpr hk'
    have hk'drop : k' ∈ (pySortDesc (tm.map Prod.fst)).drop 10 := by
      rcases List.mem_append.mp
          ((List.take_append_drop 10 (pySortDesc (tm.map Prod.fst))).symm ▸ hk'sorted)
        with h | h
      · exact absurd h hk'not
      · exact h
    have hrel : pyStrLt k k' = false :=
      List.Sorted.rel_of_mem_take_of_mem_drop hsort hk hk'drop
    have hle : ¬k.data < k'.data := (pyStrLt_eq_false_iff k k').mp hrel
    have hdisj : List.Disjoint
        ((pySortDesc (tm.map Prod.fst)).take 10)
        ((pySortDesc (tm.map Prod.fst)).drop 10) :=
      (List.nodup_append.mp
        ((List.take_append_drop 10 (pySortDesc (tm.map Prod.fst))).symm ▸ hnd_sorted)).2.2
    have hne : k' ≠ k := fun he => hdisj (he ▸ hk) hk'drop
    have hdata : k'.data < k.data :=
      lt_of_le_of_ne (not_lt.mp hle) (fun he => hne (String.toList_inj.mp he))
    exact String.lt_iff_toList_lt.mpr hdata

/-- A dumped list of strings reads back unchanged. -/
theorem strListFromJsonList_map (l : List String) :
    strListFromJsonList (l.map JVal.jstr) = some l := by
  induction l with
  | nil => rfl
  | cons hd tl ih => simp [strListFromJsonList, strFromJson, ih]

/-- A dumped `public_metrics` dict reads back unchanged. -/
theorem metricsFromJson_toJson (m : Metrics) :
    metricsFromJson (metricsToJson m) = some m := by
  cases m
  rfl

/-- The dumped `tweet_metrics` dict reads back unchanged. -/
theorem tweetMetricsFieldsFromJson_map (tm : List (String × Metrics)) :
    tweetMetricsFieldsFromJson (tm.map fun kv => (kv.1, metricsToJson kv.2))
      = some tm := by
  induction tm with
  | nil => rfl
  | cons hd tl ih => simp [tweetMetricsFieldsFromJson, metricsFromJson_toJson, ih]

/-- The dumped `last_check_time` dict reads back unchanged when every stored
value was already a string. -/
theorem lastCheckTimeFieldsFromJson_map (lct : List (String × TimeVal))
    (h : ∀ kv ∈ lct, ∃ s, kv.2 = TimeVal.str s) :
    lastCheckTimeFieldsFromJson (lct.map fun kv => (kv.1, kv.2.toJson))
      = some lct := by
  induction lct with
  | nil => rfl
  | cons hd tl ih =>
    obtain ⟨s, hs⟩ := h hd (List.mem_cons_self hd tl)
    have htl := ih (fun kv hkv => h kv (List.mem_cons_of_mem hd hkv))
    have hjs : hd.2.toJson = JVal.jstr s := by rw [hs]; rfl
    have heta : (hd.1, TimeVal.str s) = hd := by rw [← hs]
    rw [List.map_cons]
    simp only [lastCheckTimeFieldsFromJson, hjs, timeValFromJson, htl]
    simp [heta]

/-- A gate whose stored timestamp is a `datetime` equal to `now` stays shut
before the interval has elapsed. -/
theorem should_check_recent_false (parseIso : String → Option Int) (now now2 : Int)
    (lct : List (String × TimeVal)) (ct : String) (m : Int)
    (hlk : lct.lookup ct = some (.dt now)) (h2 : now2 - now < 60 * m) :
    (should_check parseIso now2 lct ct m).1 = false := by
  unfold should_check
  simp only [hlk]
  rw [if_neg (by omega)]

/-! ## Claim theorems -/

/-- C1 — counterexample.  The claim predicts sleeps of 60 s then 120 s for a
call that is rate limited on its first two attempts and succeeds on the
third; the code increments `retry_count` before computing the wait, so it
actually sleeps 120 s then 240 s. -/
theorem C1_counterexample :
    safe_api_call (fun n => if n < 2 then CallResult.rateLimited else CallResult.success 7)
      = (some 7, [120, 240]) ∧
    ([120, 240] : List Nat) ≠ [60, 120] := by
  constructor
  · rfl
  · decide

/-- C1 — amended.  For a callable that raises a rate-limit error on its
first two attempts and succeeds on the third, `safe_api_call` returns the
successful result after sleeping `60 * 2^1 = 120` s before the second
attempt and `60 * 2^2 = 240` s before the third (the attempt index in the
backoff formula counts completed failures starting at 1), and nothing more. -/
theorem C1_amended_backoff {α : Type} (outcomes : Nat → CallResult α) (v : α)
    (h0 : outcomes 0 = .rateLimited) (h1 : outcomes 1 = .rateLimited)
    (h2 : outcomes 2 = .success v) :
    safe_api_call outcomes = (some v, [60 * 2 ^ 1, 60 * 2 ^ 2]) := by
  simp [safe_api_call, max_retries, safe_api_call_loop, h0, h1, h2]

/-- C1 — witness for the amended theorem at a concrete callable. -/
theorem C1_amended_backoff_witness :
    safe_api_call (fun n => if n < 2 then CallResult.rateLimited else CallResult.success 7)
      = (some 7, [60 * 2 ^ 1, 60 * 2 ^ 2]) :=
  C1_amended_backoff _ 7 rfl rfl rfl

/-- C5 — for a check type with a positive minimum interval and no stored
timestamp, the first `should_check` call returns true and records `now`,
and an immediately following second call returns false and leaves the
stored map unchanged. -/
theorem C5_first_call_then_immediate_second (parseIso : String → Option Int)
    (now : Int) (lct : List (String × TimeVal)) (ct : String) (m : Int)
    (hnone : lct.lookup ct = none) (hm : 0 < m) :
    (should_check parseIso now lct ct m).1 = true ∧
    (should_check parseIso now lct ct m).2.lookup ct = some (.dt now) ∧
    should_check parseIso now (should_check parseIso now lct ct m).2 ct m
      = (false, (should_check parseIso now lct ct m).2) := by
  have hfirst : should_check parseIso now lct ct m = (true, setKey ct (.dt now) lct) := by
    unfold should_check
    simp [hnone]
  refine ⟨by rw [hfirst], ?_, ?_⟩
  · rw [hfirst]
    exact lookup_setKey_self ct (.dt now) lct
  · rw [hfirst]
    unfold should_check
    simp only [lookup_setKey_self]
    rw [if_neg (by omega)]

/-- C5 — witness: check type "followers", interval 60 minutes, empty map. -/
theorem C5_witness :
    (should_check (fun _ => none) 0 [] "followers" 60).1 = true ∧
    (should_check (fun _ => none) 0 [] "followers" 60).2.lookup "followers"
      = some (.dt 0) ∧
    should_check (fun _ => none) 0
        (should_check (fun _ => none) 0 [] "followers" 60).2 "followers" 60
      = (false, (should_check (fun _ => none) 0 [] "followers" 60).2) :=
  C5_first_call_then_immediate_second (fun _ => none) 0 [] "followers" 60 rfl
    (by decide)

/-- C6 — a corrupted (unparseable) stored timestamp makes the gate fail
open: `should_check` substitutes `now - (interval+1) minutes` and returns
true. -/
theorem C6_corrupted_timestamp_fails_open (parseIso : String → Option Int)
    (now : Int) (lct : List (String × TimeVal)) (ct s : String) (m : Int)
    (hlk : lct.lookup ct = some (.str s)) (hparse : parseIso s = none) :
    (should_check parseIso now lct ct m).1 = true := by
  unfold should_check
  simp only [hlk, hparse]
  rw [if_pos (by omega)]

/-- C6 — witness: a garbage timestamp string for "followers". -/
theorem C6_witness :
    (should_check (fun _ => none) 0 [("followers", TimeVal.str "garbage")]
      "followers" 60).1 = true :=
  C6_corrupted_timestamp_fails_open (fun _ => none) 0
    [("followers", TimeVal.str "garbage")] "followers" "garbage" 60 rfl rfl

/-- C7 — for a tweet already tracked in `tweet_metrics`, the engagement
loop emits a notification exactly when `likeDelta ≥ 10` or
`retweetDelta ≥ 5` or `replyDelta ≥ 3` (independent triggers), and the
stored counters are overwritten with the fresh values whether or not a
notification fired. -/
theorem C7_engagement_thresholds (username : String)
    (tm : List (String × Metrics)) (t : Tweet) (prev : Metrics)
    (hprev : tm.lookup (toString t.id) = some prev) :
    ((engagement_process_tweet username tm t).2.isSome ↔
      (10 ≤ t.public_metrics.like_count - prev.like_count ∨
       5 ≤ t.public_metrics.retweet_count - prev.retweet_count ∨
       3 ≤ t.public_metrics.reply_count - prev.reply_count)) ∧
    (engagement_process_tweet username tm t).1.lookup (toString t.id)
      = some t.public_metrics := by
  constructor
  · unfold engagement_process_tweet
    simp only [hprev]
    split
    · simpa
    · simp only [Option.isSome_none, Bool.false_eq_true, false_iff]
      assumption
  · unfold engagement_process_tweet
    simp only [hprev]
    exact lookup_setKey_self _ _ _

/-- C7 — witness: deltas of exactly {+10 likes, +4 retweets, +2 replies}
against stored counters of zero trigger a notification, and the stored
counters become the fresh ones. -/
theorem C7_witness :
    ((engagement_process_tweet "user" [("1", ⟨0, 0, 0, 0⟩)]
        ⟨1, "txt", ⟨2, 4, 10, 0⟩⟩).2.isSome ↔
      ((10 : Int) ≤ 10 - 0 ∨ (5 : Int) ≤ 4 - 0 ∨ (3 : Int) ≤ 2 - 0)) ∧
    (engagement_process_tweet "user" [("1", ⟨0, 0, 0, 0⟩)]
        ⟨1, "txt", ⟨2, 4, 10, 0⟩⟩).1.lookup (toString (1 : Int))
      = some ⟨2, 4, 10, 0⟩ :=
  C7_engagement_thresholds "user" [("1", ⟨0, 0, 0, 0⟩)]
    ⟨1, "txt", ⟨2, 4, 10, 0⟩⟩ ⟨0, 0, 0, 0⟩ rfl

/-- C10 — when the gate of the follower (resp. new-post) detector passes
but the fetch fails (or returns no data), the only change to the state is
the `last_check_time` entry the gate already advanced to `now`; in
particular the check is not retried before a full minimum interval (3600 s
resp. 1800 s) has elapsed again. -/
theorem C10_failed_fetch_frame (parseIso : String → Option Int)
    (now now2 : Int) (s : BotState) (username : String) :
    ((should_check parseIso now s.last_check_time "followers" 60).1 = true →
      check_new_followers_run parseIso now s none
        = { s with last_check_time :=
              (should_check parseIso now s.last_check_time "followers" 60).2 } ∧
      (now2 - now < 3600 →
        (should_check parseIso now2
          (check_new_followers_run parseIso now s none).last_check_time
          "followers" 60).1 = false)) ∧
    ((should_check parseIso now s.last_check_time "tweets" 30).1 = true →
      ∀ fetch : Option (List Tweet), fetch = none ∨ fetch = some [] →
        check_new_tweets_run parseIso now username s fetch
          = { s with last_check_time :=
                (should_check parseIso now s.last_check_time "tweets" 30).2 } ∧
        (now2 - now < 1800 →
          (should_check parseIso now2
            (check_new_tweets_run parseIso now username s fetch).last_check_time
            "tweets" 30).1 = false)) := by
  constructor
  · intro hgate
    have hrun : check_new_followers_run parseIso now s none
        = { s with last_check_time :=
              (should_check parseIso now s.last_check_time "followers" 60).2 } := by
      unfold check_new_followers_run
      simp [hgate]
    refine ⟨hrun, fun hlt => ?_⟩
    rw [hrun]
    exact should_check_recent_false parseIso now now2 _ "followers" 60
      (by rw [should_check_snd_of_true parseIso now _ "followers" 60 hgate]
          exact lookup_setKey_self _ _ _)
      (by omega)
  · intro hgate fetch hfetch
    have hrun : check_new_tweets_run parseIso now username s fetch
        = { s with last_check_time :=
              (should_check parseIso now s.last_check_time "tweets" 30).2 } := by
      unfold check_new_tweets_run
      rcases hfetch with h | h <;> subst h <;> simp [hgate]
    refine ⟨hrun, fun hlt => ?_⟩
    rw [hrun]
    exact should_check_recent_false parseIso now now2 _ "tweets" 30
      (by rw [should_check_snd_of_true parseIso now _ "tweets" 30 hgate]
          exact lookup_setKey_self _ _ _)
      (by omega)

/-- C10 — witness: a fresh state, gates open on the very first call, both
fetches fail, the timestamps advance and both gates are shut 10 s later. -/
theorem C10_witness :
    (check_new_followers_run (fun _ => none) 0 exState none
      = { exState with last_check_time :=
            (should_check (fun _ => none) 0 exState.last_check_time "followers" 60).2 } ∧
     (should_check (fun _ => none) 10
        (check_new_followers_run (fun _ => none) 0 exState none).last_check_time
        "followers" 60).1 = false) ∧
    (check_new_tweets_run (fun _ => none) 0 "user" exState none
      = { exState with last_check_time :=
            (should_check (fun _ => none) 0 exState.last_check_time "tweets" 30).2 } ∧
     (should_check (fun _ => none) 10
        (check_new_tweets_run (fun _ => none) 0 "user" exState none).last_check_time
        "tweets" 30).1 = false) := by
  have h := C10_failed_fetch_frame (fun _ => none) 0 10 exState "user"
  have h1 := h.1 (by decide)
  have h2 := h.2 (by decide) none (Or.inl rfl)
  exact ⟨⟨h1.1, h1.2 (by decide)⟩, ⟨h2.1, h2.2 (by decide)⟩⟩

/-- C2 — counterexample to "the kept 50 are the 50 most recently inserted
identifiers (insertion order is the eviction key)".  The eviction runs on
`list(processed_mentions)`, and CPython enumerates a set of strings in
hash order (salted per process), so any permutation of the elements is a
permissible enumeration.  For the 101-id set "0" … "100" (inserted in that
order), the reversed enumeration is such a permutation, and on it the
eviction keeps 50 ids that are not the insertion-order suffix — in
particular the most recently inserted id "100" itself is evicted. -/
theorem C2_counterexample :
    List.Perm ((exPM0 ++ ["100"]).reverse) (exPM0 ++ ["100"]) ∧
    (evict_processed_mentions ((exPM0 ++ ["100"]).reverse)).length = 50 ∧
    evict_processed_mentions ((exPM0 ++ ["100"]).reverse)
      ≠ (exPM0 ++ ["100"]).drop ((exPM0 ++ ["100"]).length - 50) ∧
    "100" ∉ evict_processed_mentions ((exPM0 ++ ["100"]).reverse) :=
  ⟨List.reverse_perm _, by decide, by decide, by decide⟩

/-- C2 — amended claim: whatever order the set enumerates in, once it
exceeds 100 entries the eviction `set(list(...)[-50:])` leaves exactly 50
entries, each an element of the set; *which* 50 depends on the
implementation-defined hash order of the enumeration and need not be the
50 most recently inserted.  `enumPM` is the enumeration
`list(processed_mentions)`, constrained only to be a permutation of the
dedup set `pm`. -/
theorem C2_amended_eviction_fifty (enumPM pm : List String)
    (hperm : List.Perm enumPM pm) (hlen : 100 < pm.length) :
    (evict_processed_mentions enumPM).length = 50 ∧
    ∀ x ∈ evict_processed_mentions enumPM, x ∈ pm := by
  have hlen2 : 100 < enumPM.length := by
    rw [hperm.length_eq]
    exact hlen
  have hev : evict_processed_mentions enumPM
      = enumPM.drop (enumPM.length - 50) := by
    unfold evict_processed_mentions
    rw [if_pos hlen2]
  constructor
  · rw [hev, List.length_drop]
    omega
  · intro x hx
    rw [hev] at hx
    exact hperm.mem_iff.mp (List.mem_of_mem_drop hx)

/-- C2 — witness: the reversed enumeration of the 101-id set leaves 50
entries, all of them from the set. -/
theorem C2_amended_witness :
    (evict_processed_mentions ((exPM0 ++ ["100"]).reverse)).length = 50 ∧
    ∀ x ∈ evict_processed_mentions ((exPM0 ++ ["100"]).reverse),
      x ∈ exPM0 ++ ["100"] :=
  C2_amended_eviction_fifty ((exPM0 ++ ["100"]).reverse) (exPM0 ++ ["100"])
    (List.reverse_perm _) (by decide)

/-- C9 — counterexample to "a once-seen mention id is never re-evaluated or
re-notified on later cycles": mention 100 is notified at time 1000 (cycle
1) and marked processed, six later cycles of ten fresh mentions each push
its id out through the >100→keep-50 eviction, and an eighth cycle fetching
the same mention notifies it again. -/
theorem C9_counterexample :
    (check_mentions_run 1000 [] exPM0 (some [exMention 100])).2.length = 1 ∧
    "100" ∈ exPM1 ∧
    "100" ∉ exPM7 ∧
    (check_mentions_run 1000 [] exPM7 (some [exMention 100])).2.length = 1 := by
  decide

/-- C9 — amended claim: in the order returned, an already-processed mention
is skipped with no state change; a fresh mention id is appended to the
dedup set immediately and notified exactly when it is at most 24 hours
old; and a processed id is skipped on every later cycle for as long as it
remains in the set — the loop itself never removes ids, only the eviction
step of C2 does, after which a refetched mention can be re-notified. -/
theorem C9_amended_mention_dedup :
    (∀ (now : Int) (amap : List (Int × String)) (acc : MentionAcc) (t : Mention),
      toString t.id ∈ acc.processed_mentions → mention_step now amap acc t = acc) ∧
    (∀ (now : Int) (amap : List (Int × String)) (acc : MentionAcc) (t : Mention),
      toString t.id ∉ acc.processed_mentions →
        (mention_step now amap acc t).processed_mentions
            = acc.processed_mentions ++ [toString t.id] ∧
        (mention_step now amap acc t).notifications.length
            = (if now - t.created_at ≤ 86400
               then acc.notifications.length + 1
               else acc.notifications.length)) ∧
    (∀ (now : Int) (amap : List (Int × String)) (pm : List String)
        (mentions : List Mention) (x : String),
      x ∈ pm → x ∈ mentions_after_processing now amap pm mentions) := by
  refine ⟨?_, ?_, ?_⟩
  · intro now amap acc t h
    unfold mention_step
    rw [if_pos h]
  · intro now amap acc t h
    unfold mention_step
    rw [if_neg h]
    by_cases hage : 86400 < now - t.created_at
    · rw [if_pos hage, if_neg (by omega)]
      exact ⟨rfl, rfl⟩
    · rw [if_neg hage, if_pos (by omega)]
      exact ⟨rfl, by simp⟩
  · intro now amap pm mentions x hx
    exact mention_foldl_mem now amap x mentions ⟨pm, [], false⟩ hx

/-- C9 — witness for the amended theorem at concrete inputs. -/
theorem C9_witness :
    mention_step 1000 [] ⟨["100"], [], false⟩ (exMention 100)
      = ⟨["100"], [], false⟩ ∧
    ((mention_step 1000 [] ⟨["5"], [], false⟩ (exMention 100)).processed_mentions
        = ["5"] ++ [toString (exMention 100).id] ∧
     (mention_step 1000 [] ⟨["5"], [], false⟩ (exMention 100)).notifications.length
        = (if (1000 : Int) - (exMention 100).created_at ≤ 86400
           then (⟨["5"], [], false⟩ : MentionAcc).notifications.length + 1
           else (⟨["5"], [], false⟩ : MentionAcc).notifications.length)) ∧
    "5" ∈ mentions_after_processing 1000 [] ["5"] [exMention 100] :=
  ⟨C9_amended_mention_dedup.1 1000 [] ⟨["100"], [], false⟩ (exMention 100) (by decide),
   C9_amended_mention_dedup.2.1 1000 [] ⟨["5"], [], false⟩ (exMention 100) (by decide),
   C9_amended_mention_dedup.2.2 1000 [] ["5"] [exMention 100] "5" (by decide)⟩

/-- C8 — counterexample to "retains the numerically largest 10": the source
sorts the id *strings* (`sorted(keys, reverse=True)`), so with the eleven
tracked ids "9", "10", …, "19" the eviction keeps "9" (numerically 9) and
drops "10" (numerically 10 > 9). -/
theorem C8_counterexample :
    "9" ∈ (evict_tweet_metrics exMetricsMap).map Prod.fst ∧
    "10" ∉ (evict_tweet_metrics exMetricsMap).map Prod.fst ∧
    decimalValue "9" < decimalValue "10" := by
  decide

/-- C8 — amended claim: `tweet_metrics` never exceeds 10 entries after any
number of cycles, and whenever eviction runs (more than 10 tracked posts,
duplicate-free keys) it keeps exactly 10 entries, namely the 10 with the
*lexicographically* largest id strings — which agrees with numeric order
only when the ids have equal digit counts. -/
theorem C8_amended_bound_and_eviction (u : String)
    (cycles : List (Bool × Option Int × Option (List Tweet)))
    (tm tmBig : List (String × Metrics))
    (h10 : tm.length ≤ 10)
    (hnd : (tmBig.map Prod.fst).Nodup) (hbig : 10 < tmBig.length) :
    (run_engagement_cycles u cycles tm).length ≤ 10 ∧
    (evict_tweet_metrics tmBig).length = 10 ∧
    (∀ k ∈ (evict_tweet_metrics tmBig).map Prod.fst,
      ∀ k' ∈ tmBig.map Prod.fst,
        k' ∉ (evict_tweet_metrics tmBig).map Prod.fst → k' < k) := by
  obtain ⟨hlen, hlarge⟩ := evict_tweet_metrics_keeps_largest tmBig hnd hbig
  exact ⟨run_engagement_cycles_length_le u cycles tm h10, hlen, hlarge⟩

/-- C8 — witness: one cycle over an empty map plus the eleven-id example. -/
theorem C8_witness :
    (run_engagement_cycles "user"
        [(true, some 1, some [⟨11, "t", ⟨0, 0, 0, 0⟩⟩])] []).length ≤ 10 ∧
    (evict_tweet_metrics exMetricsMap).length = 10 ∧
    (∀ k ∈ (evict_tweet_metrics exMetricsMap).map Prod.fst,
      ∀ k' ∈ exMetricsMap.map Prod.fst,
        k' ∉ (evict_tweet_metrics exMetricsMap).map Prod.fst → k' < k) :=
  C8_amended_bound_and_eviction "user"
    [(true, some 1, some [⟨11, "t", ⟨0, 0, 0, 0⟩⟩])] [] exMetricsMap
    (by decide) (by decide) (by decide)

/-- C3 — counterexample.  Saving a state whose `last_check_time` holds a
live `datetime` and loading it back does not restore the original: the
`default=str` fallback of `json.dump` serializes the datetime as a string,
and `load_state` never converts it back, so the loaded field differs. -/
theorem C3_counterexample :
    load_state_json (save_state_json
        ⟨none, 0, none, [], [], [], [("followers", TimeVal.dt 0)]⟩)
      ≠ some ⟨none, 0, none, [], [], [], [("followers", TimeVal.dt 0)]⟩ := by
  decide

/-- C3 — amended.  Saving then loading restores `user_id`,
`last_follower_count`, `last_tweet_id`, `processed_mentions` (the dedup set
is reconstructed exactly from its list form), `tweet_metrics` and
`notifications`; the round trip is equal in *all* fields exactly when every
`last_check_time` value is already a string (as it is after any previous
round trip) — a live `datetime` value comes back as its string rendering
instead. -/
theorem C3_amended_round_trip (s : BotState)
    (hnd : s.processed_mentions.Nodup)
    (hstr : ∀ kv ∈ s.last_check_time, ∃ t, kv.2 = TimeVal.str t) :
    load_state_json (save_state_json s) = some s := by
  obtain ⟨uid, lfc, lti, pm, tm, notifs, lct⟩ := s
  cases uid <;> cases lti <;>
    simp_all [save_state_json, load_state_json, List.lookup, strListFromJson,
      tweetMetricsFromJson, lastCheckTimeFromJson, intFromJson, optIntToJson,
      optIntFromJson, Option.bind, strListFromJsonList_map,
      tweetMetricsFieldsFromJson_map,
      lastCheckTimeFieldsFromJson_map lct (by simpa using hstr),
      List.dedup_eq_self.mpr hnd]

/-- C3 — witness: a state whose timestamps are already strings round-trips
exactly. -/
theorem C3_witness :
    load_state_json (save_state_json
        ⟨some 42, 7, some 99, ["1", "2"], [("99", ⟨1, 2, 3, 4⟩)],
          ["note"], [("followers", TimeVal.str "2024-01-01 00:00:00")]⟩)
      = some ⟨some 42, 7, some 99, ["1", "2"], [("99", ⟨1, 2, 3, 4⟩)],
          ["note"], [("followers", TimeVal.str "2024-01-01 00:00:00")]⟩ :=
  C3_amended_round_trip _ (by decide)
    (fun kv hkv => by
      rcases List.mem_singleton.mp hkv with rfl
      exact ⟨"2024-01-01 00:00:00", rfl⟩)

/-- C4 — counterexample.  The write is not all-or-nothing: `save_state`
opens the state file with mode `'w'`, truncating it in place before
`json.dump` streams the document, so a dump that fails midway leaves a
prefix of the new document — neither the previous durable copy nor the
full new one (the exception itself is caught). -/
theorem C4_counterexample :
    (save_state_file (some "OLDSTATE") "NEWSTATEDOC" (.dumpFail 3)).1
      ≠ some "OLDSTATE" ∧
    (save_state_file (some "OLDSTATE") "NEWSTATEDOC" (.dumpFail 3)).1
      ≠ some "NEWSTATEDOC" ∧
    (save_state_file (some "OLDSTATE") "NEWSTATEDOC" (.dumpFail 3)).2 = false := by
  decide

/-- C4 — amended.  A `save_state` write failure is caught and never escapes
(the loop cannot crash on it), and a successful dump writes the full
document; but the semantics are truncate-then-write, not
write-new-then-replace: a dump failing after `written` characters leaves
exactly that prefix of the new document as the durable copy, so the
previous durable copy is not protected. -/
theorem C4_amended_save_semantics (prev : Option String) (doc : String)
    (out : WriteOutcome) :
    (save_state_file prev doc out).2 = false ∧
    (out = .dumpOk → (save_state_file prev doc out).1 = some doc) ∧
    (∀ written, out = .dumpFail written →
      (save_state_file prev doc out).1 = some (doc.take written)) ∧
    (out = .openFail → (save_state_file prev doc out).1 = prev) := by
  cases out <;> simp [save_state_file]

/-- C4 — witness: a concrete failed dump leaves the 3-character prefix. -/
theorem C4_witness :
    (save_state_file (some "OLDSTATE") "NEWSTATEDOC" (.dumpFail 3)).2 = false ∧
    (save_state_file (some "OLDSTATE") "NEWSTATEDOC" (.dumpFail 3)).1
      = some ("NEWSTATEDOC".take 3) :=
  ⟨(C4_amended_save_semantics (some "OLDSTATE") "NEWSTATEDOC" (.dumpFail 3)).1,
   (C4_amended_save_semantics (some "OLDSTATE") "NEWSTATEDOC" (.dumpFail 3)).2.2.1
     3 rfl⟩

end XNotifBot
